import Mathlib

/-!
Verification of the interactive pricing engine
(`interactive_pricing_engine.py`).

Shallow embedding conventions:
* Python floats holding prices are modelled as exact rationals `ℚ`.
* CSV row fields that must be converted with `int()` / `float()` are
  modelled as `Option` values: `none` stands for a missing or
  non-numeric field, on which the conversion raises; a raised exception
  is an `Except.error`.
* Python rounding to two places is modelled as exact rounding of the
  rational to hundredths (`round2`); no claim below depends on
  half-way points, where binary floats and exact half-up rounding
  could differ.
* The md5 digest from `calculate_file_hash` is modelled abstractly: a
  digest is either the empty sentinel (missing file) or a constructor
  tagging the hashed content; md5 of equal byte strings is equal,
  which is all the change detector relies on.
-/

instance exceptDecidableEq {ε α : Type} [DecidableEq ε] [DecidableEq α] :
    DecidableEq (Except ε α)
  | Except.error x, Except.error y =>
      if h : x = y then Decidable.isTrue (congrArg Except.error h)
      else Decidable.isFalse (fun hc => h (Except.error.inj hc))
  | Except.error _, Except.ok _ => Decidable.isFalse (fun hc => Except.noConfusion hc)
  | Except.ok _, Except.error _ => Decidable.isFalse (fun hc => Except.noConfusion hc)
  | Except.ok x, Except.ok y =>
      if h : x = y then Decidable.isTrue (congrArg Except.ok h)
      else Decidable.isFalse (fun hc => h (Except.ok.inj hc))

/-- Identifies which numeric column a failed conversion was reading. -/
inductive FieldId where
  | stock
  | current_price
  | cost_price
deriving DecidableEq, Repr

/-- An exception escaping a single evaluation: a missing or non-numeric
numeric field (the `int()` / `float()` conversion raises), or an input
file missing when a pass opens it. -/
inductive EvalError where
  | malformed (field : FieldId)
  | missingFile
deriving DecidableEq, Repr

/-- One row of the products table. The key column is `sku`; each of the
three numeric columns is `none` when missing or non-numeric. -/
structure Product where
  sku : String
  current_price : Option ℚ
  cost_price : Option ℚ
  stock : Option ℤ
deriving DecidableEq, Repr

/-- One row of the sales table, after numeric conversion. -/
structure SalesRow where
  sku : String
  quantity_sold : ℤ
deriving DecidableEq, Repr

/-- The sales figures one product is evaluated against; the lookup
default supplies zero, so the quantity is always available. -/
structure SalesData where
  quantity_sold : ℤ
deriving DecidableEq, Repr

/-- The emitted pricing decision: sku, old price, new price. -/
structure Decision where
  sku : String
  old_price : ℚ
  new_price : ℚ
deriving DecidableEq, Repr

/-- Converting one raw field, as the source conversions do: yield the
numeric value or raise, identifying the field read. -/
def getField {α : Type} (v : Option α) (field : FieldId) : Except EvalError α :=
  match v with
  | some x => Except.ok x
  | none => Except.error (EvalError.malformed field)

/-- The four rule variants of the source file. -/
inductive RuleKind where
  | lowStockHighDemand
  | deadStock
  | overstockedInventory
  | minimumProfit
deriving DecidableEq, Repr

/-- A rule instance: its variant and its `priority` attribute (lower
number = evaluated earlier). -/
structure Rule where
  kind : RuleKind
  priority : ℤ
deriving DecidableEq, Repr

/-- Predicate `should_apply` of each rule class. Each tier predicate
converts the product stock (which can raise) and reads the quantity
sold; the minimum-profit predicate is always true. -/
def should_apply (r : Rule) (p : Product) (s : SalesData) : Except EvalError Bool :=
  match r.kind with
  | RuleKind.lowStockHighDemand =>
      match getField p.stock FieldId.stock with
      | Except.error e => Except.error e
      | Except.ok st => Except.ok (decide (st < 20 ∧ s.quantity_sold > 30))
  | RuleKind.deadStock =>
      match getField p.stock FieldId.stock with
      | Except.error e => Except.error e
      | Except.ok st => Except.ok (decide (st > 200 ∧ s.quantity_sold = 0))
  | RuleKind.overstockedInventory =>
      match getField p.stock FieldId.stock with
      | Except.error e => Except.error e
      | Except.ok st => Except.ok (decide (st > 100 ∧ s.quantity_sold < 20))
  | RuleKind.minimumProfit => Except.ok true

/-- Transform `apply` of each rule class, on a raw product row (no
intermediate price yet): the tier transforms scale the current price;
the margin transform falls back to the current price since no
intermediate has been stored. -/
def rule_apply (r : Rule) (p : Product) (_s : SalesData) : Except EvalError ℚ :=
  match r.kind with
  | RuleKind.lowStockHighDemand =>
      match getField p.current_price FieldId.current_price with
      | Except.error e => Except.error e
      | Except.ok cp => Except.ok (cp * (115 / 100))
  | RuleKind.deadStock =>
      match getField p.current_price FieldId.current_price with
      | Except.error e => Except.error e
      | Except.ok cp => Except.ok (cp * (7 / 10))
  | RuleKind.overstockedInventory =>
      match getField p.current_price FieldId.current_price with
      | Except.error e => Except.error e
      | Except.ok cp => Except.ok (cp * (9 / 10))
  | RuleKind.minimumProfit =>
      match getField p.cost_price FieldId.cost_price with
      | Except.error e => Except.error e
      | Except.ok c =>
          match getField p.current_price FieldId.current_price with
          | Except.error e => Except.error e
          | Except.ok cp => Except.ok (max cp (c * (6 / 5)))

/-- The margin transform as invoked in phase 2 of the evaluation: the
dict it receives is the result row, whose intermediate price was
already set to the phase-1 working price. -/
def min_profit_apply (p : Product) (new_price : ℚ) : Except EvalError ℚ :=
  match getField p.cost_price FieldId.cost_price with
  | Except.error e => Except.error e
  | Except.ok cost_price => Except.ok (max new_price (cost_price * (6 / 5)))

/-- Rounding a price to 2 decimal places, exact on ℚ. -/
def round2 (q : ℚ) : ℚ := ((round (q * 100) : ℤ) : ℚ) / 100

/-- Whether a rule instance is the margin rule (the isinstance check of
the source). -/
def isMinProfit (r : Rule) : Bool :=
  match r.kind with
  | RuleKind.minimumProfit => true
  | _ => false

/-- The phase-1 loop of the evaluation: walk the installed rules in
list order, skip the margin rule, apply the first rule whose predicate
holds, stop. `none` = no tier rule fired. -/
def tierScan (rules : List Rule) (p : Product) (s : SalesData) :
    Except EvalError (Option ℚ) :=
  match rules with
  | [] => Except.ok none
  | r :: rest =>
      cond (isMinProfit r) (tierScan rest p s)
        (match should_apply r p s with
         | Except.error e => Except.error e
         | Except.ok true =>
             match rule_apply r p s with
             | Except.error e => Except.error e
             | Except.ok np => Except.ok (some np)
         | Except.ok false => tierScan rest p s)

/-- Whether a margin rule is installed (the filtered sub-list of margin
rules is nonempty). -/
def hasMinProfit (rules : List Rule) : Bool :=
  rules.any isMinProfit

/-- The per-product evaluation: set the old price from the current
price, run the exclusive tier scan, fall back to the current price
when no tier rule fired, apply the margin rule when installed, round
to 2 decimals, emit the decision. -/
def process_product (rules : List Rule) (p : Product) (s : SalesData) :
    Except EvalError Decision :=
  match getField p.current_price FieldId.current_price with
  | Except.error e => Except.error e
  | Except.ok old_price =>
      match tierScan rules p s with
      | Except.error e => Except.error e
      | Except.ok tier =>
          let working := tier.getD old_price
          match cond (hasMinProfit rules) (min_profit_apply p working)
                  (Except.ok working) with
          | Except.error e => Except.error e
          | Except.ok final =>
              Except.ok { sku := p.sku, old_price := old_price,
                          new_price := round2 final }

/-- The pre-floor working price of an evaluation: the phase-1 result
before the margin rule and rounding are applied. -/
def preFloorPrice (rules : List Rule) (p : Product) (s : SalesData) :
    Except EvalError ℚ :=
  match getField p.current_price FieldId.current_price with
  | Except.error e => Except.error e
  | Except.ok old_price =>
      match tierScan rules p s with
      | Except.error e => Except.error e
      | Except.ok tier => Except.ok (tier.getD old_price)

/-- Stable insertion of a rule into a priority-sorted list: the new
rule goes after strictly smaller priorities and before equal or larger
ones, which reproduces the stable whole-list sort after an append. -/
def insertByPriority (r : Rule) : List Rule → List Rule
  | [] => [r]
  | x :: xs =>
      if r.priority ≤ x.priority then r :: x :: xs
      else x :: insertByPriority r xs

/-- Stable sort by priority (insertion sort). -/
def sortRules : List Rule → List Rule
  | [] => []
  | r :: rs => insertByPriority r (sortRules rs)

/-- Adding a rule to the engine: append, then re-sort stably by
priority. -/
def add_rule (rules : List Rule) (rule : Rule) : List Rule :=
  sortRules (rules ++ [rule])

/-- The engine built at startup: the four standard rules added at
priorities 1–4. -/
def standardEngine : List Rule :=
  add_rule
    (add_rule
      (add_rule
        (add_rule [] { kind := RuleKind.lowStockHighDemand, priority := 1 })
        { kind := RuleKind.deadStock, priority := 2 })
      { kind := RuleKind.overstockedInventory, priority := 3 })
    { kind := RuleKind.minimumProfit, priority := 4 }

/-- Reference definition following the words of the spec, phase 1:
first-match-wins tier selection in priority order 1, 2, 3, falling
back to the unmodified current price. Compared against the engine in
the C1 theorem. -/
def specTierSelection (st qty : ℤ) (cp : ℚ) : ℚ :=
  if st < 20 ∧ qty > 30 then cp * (115 / 100)
  else if st > 200 ∧ qty = 0 then cp * (7 / 10)
  else if st > 100 ∧ qty < 20 then cp * (9 / 10)
  else cp

/-- Building the sku-indexed sales dict; a later row for the same sku
overwrites an earlier one. -/
def load_sales_data (rows : List SalesRow) (sku : String) : Option SalesRow :=
  rows.foldl (fun acc r => if r.sku = sku then some r else acc) none

/-- The sales lookup a product row is processed with: a sku absent from
the sales table defaults to zero quantity sold. -/
def salesFor (rows : List SalesRow) (sku : String) : SalesData :=
  match load_sales_data rows sku with
  | some r => { quantity_sold := r.quantity_sold }
  | none => { quantity_sold := 0 }

/-- The product generator consumed by the output writer: output rows
are produced in order until the first raised error; an error stops the
iteration, so the rows after it are lost, and the error escapes to the
change handler. -/
def runRows (rules : List Rule) (sales : List SalesRow) :
    List Product → List Decision × Option EvalError
  | [] => ([], none)
  | p :: ps =>
      match process_product rules p (salesFor sales p.sku) with
      | Except.ok d =>
          let rest := runRows rules sales ps
          (d :: rest.1, rest.2)
      | Except.error e => ([], some e)

/-- One full pass over the two tables: opening a missing input file
raises before any product row is evaluated, leaving a header-only
output. -/
def runPass (rules : List Rule) :
    Option (List Product) → Option (List SalesRow) →
      List Decision × Option EvalError
  | some ps, some ss => runRows rules ss ps
  | none, _ => ([], some EvalError.missingFile)
  | some _, none => ([], some EvalError.missingFile)

/-- An md5 content digest, abstractly: the hash function returns the
empty sentinel for a missing file and the digest of the content bytes
otherwise. The model keeps only what the change detector uses — the
sentinel is distinct from every content digest, and equal contents
hash equally. -/
inductive Digest (α : Type) where
  | empty
  | md5 (content : α)
deriving DecidableEq, Repr

/-- Fingerprinting one watched file: the empty sentinel for a
nonexistent path, the content digest otherwise. -/
def calculate_file_hash {α : Type} (file : Option α) : Digest α :=
  match file with
  | none => Digest.empty
  | some content => Digest.md5 content

/-- The mutable state of the change handler, together with the last
written output table (`none` = never written). -/
structure HandlerState where
  products_hash : Digest (List Product)
  sales_hash : Digest (List SalesRow)
  output : Option (List Decision × Option EvalError)
deriving DecidableEq

/-- The change check: rehash both files, refresh each stored hash that
differs, and — only if something changed — run a pass and (re)write
the output. The exception handler around the pass means a processing
error still leaves the hashes refreshed. The returned `Bool` records
whether a pass was attempted. -/
def process_files (rules : List Rule) (st : HandlerState)
    (pf : Option (List Product)) (sf : Option (List SalesRow)) :
    HandlerState × Bool :=
  let new_products_hash := calculate_file_hash pf
  let new_sales_hash := calculate_file_hash sf
  let pState :=
    if new_products_hash ≠ st.products_hash then (new_products_hash, true)
    else (st.products_hash, false)
  let sState :=
    if new_sales_hash ≠ st.sales_hash then (new_sales_hash, true)
    else (st.sales_hash, pState.2)
  let files_changed := sState.2
  if files_changed then
    ({ products_hash := pState.1, sales_hash := sState.1,
       output := some (runPass rules pf sf) }, true)
  else
    ({ products_hash := pState.1, sales_hash := sState.1,
       output := st.output }, false)

/-- Printing a price with exactly two fractional digits (exact model
of the fixed-point float format): round to hundredths, then print. -/
def format2 (q : ℚ) : String :=
  let cents : ℤ := round (q * 100)
  let a := cents.natAbs
  let frac := a % 100
  (if cents < 0 then "-" else "") ++ toString (a / 100) ++ "." ++
    (if frac < 10 then "0" ++ toString frac else toString frac)

/-- An output-table price cell: a dollar sign followed by the
two-decimal rendering. -/
def formatMoney (q : ℚ) : String := "$" ++ format2 q

/-- The startup engine is the four standard rules in ascending
priority order. -/
lemma standardEngine_eq :
    standardEngine =
      [ { kind := RuleKind.lowStockHighDemand, priority := 1 },
        { kind := RuleKind.deadStock, priority := 2 },
        { kind := RuleKind.overstockedInventory, priority := 3 },
        { kind := RuleKind.minimumProfit, priority := 4 } ] := by
  decide

/-- Rounding to hundredths is monotone. -/
lemma round2_mono {a b : ℚ} (h : a ≤ b) : round2 a ≤ round2 b := by
  unfold round2
  have h1 : round (a * 100) ≤ round (b * 100) := by
    rw [round_eq, round_eq]
    exact Int.floor_le_floor (by linarith)
  have h100 : (0 : ℚ) < 100 := by norm_num
  exact (div_le_div_iff_of_pos_right h100).mpr (by exact_mod_cast h1)

/-- A sku that appears in no sales row is absent from the sales dict. -/
lemma load_sales_data_of_absent (rows : List SalesRow) (sku : String)
    (h : ∀ r ∈ rows, r.sku ≠ sku) : load_sales_data rows sku = none := by
  induction rows with
  | nil => rfl
  | cons r rs ih =>
      unfold load_sales_data at ih ⊢
      simp only [List.foldl_cons, h r (List.mem_cons_self r rs)]
      exact ih fun x hx => h x (List.mem_cons_of_mem r hx)

/-- C1: for every product and sales record (with parseable stock and
current price), the pre-floor working price of the standard engine is
exactly the spec's first-match tier selection — the first tier rule in
ascending priority order whose predicate holds, the margin rule
skipped, the unmodified current price when none matches — and the full
evaluation is that pre-floor price fed through the margin floor and
rounding alone, so no other tier rule's transform affects the result;
when two tier predicates hold simultaneously, the nested first-match
shape gives the lower-priority-number rule alone. -/
theorem C1_exclusive_tier_selection
    (p : Product) (s : SalesData) (st : ℤ) (cp : ℚ)
    (hst : p.stock = some st) (hcp : p.current_price = some cp) :
    preFloorPrice standardEngine p s =
      Except.ok (specTierSelection st s.quantity_sold cp) ∧
    process_product standardEngine p s =
      Except.map
        (fun f => { sku := p.sku, old_price := cp, new_price := round2 f })
        (min_profit_apply p (specTierSelection st s.quantity_sold cp)) := by
  rw [standardEngine_eq]
  by_cases h1 : st < 20 ∧ s.quantity_sold > 30 <;>
    by_cases h2 : st > 200 ∧ s.quantity_sold = 0 <;>
      by_cases h3 : st > 100 ∧ s.quantity_sold < 20 <;>
        simp [preFloorPrice, process_product, tierScan, should_apply,
          rule_apply, getField, hst, hcp, isMinProfit, hasMinProfit,
          min_profit_apply, specTierSelection, h1, h2, h3, Except.map] <;>
        cases hco : p.cost_price <;> simp [hco]

/-- C1 witness: the dead-stock tier fires alone for stock 300, zero
sold, and the evaluation factors through that pre-floor price. -/
theorem C1_exclusive_tier_selection_witness :
    preFloorPrice standardEngine
      { sku := "W1", current_price := some 10, cost_price := some 9,
        stock := some 300 } { quantity_sold := 0 } =
      Except.ok (specTierSelection 300 0 10) ∧
    process_product standardEngine
      { sku := "W1", current_price := some 10, cost_price := some 9,
        stock := some 300 } { quantity_sold := 0 } =
      Except.map
        (fun f => { sku := "W1", old_price := 10, new_price := round2 f })
        (min_profit_apply
          { sku := "W1", current_price := some 10, cost_price := some 9,
            stock := some 300 } (specTierSelection 300 0 10)) :=
  C1_exclusive_tier_selection
    { sku := "W1", current_price := some 10, cost_price := some 9,
      stock := some 300 } { quantity_sold := 0 } 300 10 rfl rfl

/-- C2 counterexample: with the standard engine (margin rule
installed), the product with current price 1, cost price 9.01, stock
300 and zero sold gets dead-stock pre-floor 0.70, floor 10.812, and a
final rounded price of 10.81 — strictly below cost times 1.2, so the
claimed invariant fails after the final rounding. -/
theorem C2_margin_after_rounding_cex :
    process_product standardEngine
      { sku := "B", current_price := some 1, cost_price := some (901 / 100),
        stock := some 300 }
      { quantity_sold := 0 } =
      Except.ok { sku := "B", old_price := 1, new_price := 1081 / 100 } ∧
    ¬ ((1081 : ℚ) / 100 ≥ (901 / 100) * (6 / 5)) := by
  constructor
  · norm_num [process_product, tierScan, should_apply, rule_apply, getField,
      min_profit_apply, hasMinProfit, isMinProfit, standardEngine, add_rule,
      sortRules, insertByPriority, round2, round_eq]
  · norm_num

/-- C2 amended: whenever the margin rule is installed, every emitted
decision has a new price at least the margin floor rounded to 2
decimal places (equivalently, the pre-rounding price is at least the
floor itself; the final rounding can dip below the exact floor by less
than half a cent). -/
theorem C2_margin_floor_after_rounding
    (rules : List Rule) (p : Product) (s : SalesData) (d : Decision) (c : ℚ)
    (hmin : hasMinProfit rules = true) (hc : p.cost_price = some c)
    (h : process_product rules p s = Except.ok d) :
    round2 (c * (6 / 5)) ≤ d.new_price := by
  cases hcp : p.current_price with
  | none => simp [process_product, getField, hcp] at h
  | some cp =>
      cases htier : tierScan rules p s with
      | error e => simp [process_product, getField, hcp, htier] at h
      | ok tier =>
          simp [process_product, getField, hcp, htier, hmin,
            min_profit_apply, hc] at h
          rw [← h]
          exact round2_mono (le_max_right _ _)

/-- C2 witness: the dead-stock example decision respects the rounded
floor. -/
theorem C2_margin_floor_after_rounding_witness :
    round2 ((9 : ℚ) * (6 / 5)) ≤
      ({ sku := "A", old_price := 10, new_price := 54 / 5 } : Decision).new_price :=
  C2_margin_floor_after_rounding standardEngine
    { sku := "A", current_price := some 10, cost_price := some 9,
      stock := some 300 }
    { quantity_sold := 0 }
    { sku := "A", old_price := 10, new_price := 54 / 5 } 9 (by decide) rfl
    (by norm_num [process_product, tierScan, should_apply, rule_apply,
      getField, min_profit_apply, hasMinProfit, isMinProfit, standardEngine,
      add_rule, sortRules, insertByPriority, round2, round_eq])

/-- C3 (against the source as written): a batch with one bad row (sku
BAD, non-numeric stock) between two good rows does not continue past
the bad row — the raised conversion error aborts the iteration, the
row after the bad one produces no decision, and the error does not
carry the offending sku; the source therefore contradicts the claimed
per-row isolation, which the spec itself marks as the intent. -/
theorem C3_bad_row_aborts_batch :
    runRows standardEngine []
      [ { sku := "G1", current_price := some 10, cost_price := some 8,
          stock := some 100 },
        { sku := "BAD", current_price := some 10, cost_price := some 8,
          stock := none },
        { sku := "G2", current_price := some 10, cost_price := some 8,
          stock := some 5 } ] =
      ([ { sku := "G1", old_price := 10, new_price := 10 } ],
        some (EvalError.malformed FieldId.stock)) := by
  norm_num [runRows, salesFor, load_sales_data, process_product, tierScan,
    should_apply, rule_apply, getField, min_profit_apply, hasMinProfit,
    isMinProfit, standardEngine, add_rule, sortRules, insertByPriority,
    round2, round_eq]

/-- C4: for current price 10, cost price 9, stock 300 and zero sold,
the dead-stock rule fires with pre-floor price 7, the margin floor
10.80 = 9 × 1.2 overrides it, and the emitted decision carries new
price 10.80, formatted as a dollar amount. -/
theorem C4_dead_stock_floor_example :
    preFloorPrice standardEngine
      { sku := "A", current_price := some 10, cost_price := some 9,
        stock := some 300 } { quantity_sold := 0 } = Except.ok 7 ∧
    process_product standardEngine
      { sku := "A", current_price := some 10, cost_price := some 9,
        stock := some 300 } { quantity_sold := 0 } =
      Except.ok { sku := "A", old_price := 10, new_price := 54 / 5 } ∧
    (54 : ℚ) / 5 = 9 * (6 / 5) ∧
    formatMoney (54 / 5) = "$10.80" := by
  refine ⟨?_, ?_, by norm_num, ?_⟩
  · norm_num [preFloorPrice, tierScan, should_apply, rule_apply, getField,
      isMinProfit, standardEngine, add_rule, sortRules, insertByPriority]
  · norm_num [process_product, tierScan, should_apply, rule_apply, getField,
      min_profit_apply, hasMinProfit, isMinProfit, standardEngine, add_rule,
      sortRules, insertByPriority, round2, round_eq]
  · norm_num [formatMoney, format2, round_eq]
    rfl

/-- C5: the margin transform applied to any product with a parseable
cost price and any phase-1 working price returns exactly the maximum
of the working price and cost times 1.2, which never falls below the
working price. -/
theorem C5_margin_never_lowers
    (p : Product) (_s : SalesData) (working c : ℚ)
    (hc : p.cost_price = some c) :
    min_profit_apply p working = Except.ok (max working (c * (6 / 5))) ∧
    working ≤ max working (c * (6 / 5)) := by
  refine ⟨by simp [min_profit_apply, getField, hc], le_max_left _ _⟩

/-- C5 witness: working price 5 against cost price 8 yields the floor
9.6 and the result does not fall below 5. -/
theorem C5_margin_never_lowers_witness :
    min_profit_apply
      { sku := "W5", current_price := some 5, cost_price := some 8,
        stock := some 1 } 5 = Except.ok (max 5 ((8 : ℚ) * (6 / 5))) ∧
    (5 : ℚ) ≤ max 5 ((8 : ℚ) * (6 / 5)) :=
  C5_margin_never_lowers
    { sku := "W5", current_price := some 5, cost_price := some 8,
      stock := some 1 } { quantity_sold := 0 } 5 8 rfl

/-- C6: the pipeline is a pure function of the input tables and the
installed rules, and a change check leaves the stored hashes equal to
the current file digests, so running the check again on unchanged
files performs no pass and leaves the handler state — the output table
included — exactly as the first run left it. -/
theorem C6_pass_idempotent (rules : List Rule) (st : HandlerState)
    (pf : Option (List Product)) (sf : Option (List SalesRow)) :
    process_files rules (process_files rules st pf sf).1 pf sf =
      ((process_files rules st pf sf).1, false) := by
  unfold process_files
  by_cases h1 : calculate_file_hash pf = st.products_hash <;>
    by_cases h2 : calculate_file_hash sf = st.sales_hash <;>
      simp [h1, h2]

/-- C7: a product whose sku appears in no sales row is evaluated with
the zero-quantity default; under it the scarcity-surge predicate is
false, the dead-stock predicate reduces to its stock condition, the
overstock predicate reduces to its stock condition, and the whole
evaluation coincides with an explicit zero-quantity sales record. -/
theorem C7_absent_sku_defaults_to_zero
    (rows : List SalesRow) (p : Product) (st : ℤ) (rules : List Rule)
    (habs : ∀ r ∈ rows, r.sku ≠ p.sku) (hst : p.stock = some st) :
    salesFor rows p.sku = { quantity_sold := 0 } ∧
    should_apply { kind := RuleKind.lowStockHighDemand, priority := 1 } p
        (salesFor rows p.sku) = Except.ok false ∧
    should_apply { kind := RuleKind.deadStock, priority := 2 } p
        (salesFor rows p.sku) = Except.ok (decide (st > 200)) ∧
    should_apply { kind := RuleKind.overstockedInventory, priority := 3 } p
        (salesFor rows p.sku) = Except.ok (decide (st > 100)) ∧
    process_product rules p (salesFor rows p.sku) =
      process_product rules p { quantity_sold := 0 } := by
  have hs : salesFor rows p.sku = { quantity_sold := 0 } := by
    simp [salesFor, load_sales_data_of_absent rows p.sku habs]
  refine ⟨hs, ?_, ?_, ?_, by rw [hs]⟩
  · rw [hs]; simp [should_apply, getField, hst]
  · rw [hs]; simp [should_apply, getField, hst]
  · rw [hs]; simp [should_apply, getField, hst]

/-- C7 witness: a sales table naming only another sku leaves this
product on the zero-sold default, with the three tier predicates as
claimed. -/
theorem C7_absent_sku_defaults_to_zero_witness :
    salesFor [ { sku := "X", quantity_sold := 5 } ] "P" =
      { quantity_sold := 0 } ∧
    should_apply { kind := RuleKind.lowStockHighDemand, priority := 1 }
        { sku := "P", current_price := some 10, cost_price := some 8,
          stock := some 300 }
        (salesFor [ { sku := "X", quantity_sold := 5 } ] "P") =
      Except.ok false ∧
    should_apply { kind := RuleKind.deadStock, priority := 2 }
        { sku := "P", current_price := some 10, cost_price := some 8,
          stock := some 300 }
        (salesFor [ { sku := "X", quantity_sold := 5 } ] "P") =
      Except.ok (decide ((300 : ℤ) > 200)) ∧
    should_apply { kind := RuleKind.overstockedInventory, priority := 3 }
        { sku := "P", current_price := some 10, cost_price := some 8,
          stock := some 300 }
        (salesFor [ { sku := "X", quantity_sold := 5 } ] "P") =
      Except.ok (decide ((300 : ℤ) > 100)) ∧
    process_product standardEngine
        { sku := "P", current_price := some 10, cost_price := some 8,
          stock := some 300 }
        (salesFor [ { sku := "X", quantity_sold := 5 } ] "P") =
      process_product standardEngine
        { sku := "P", current_price := some 10, cost_price := some 8,
          stock := some 300 } { quantity_sold := 0 } :=
  C7_absent_sku_defaults_to_zero
    [ { sku := "X", quantity_sold := 5 } ]
    { sku := "P", current_price := some 10, cost_price := some 8,
      stock := some 300 } 300 standardEngine (by decide) rfl

/-- C8: for every rule set, product and sales record, a successful
evaluation emits a decision whose old price is exactly the product's
current price as read at the start; the tier transforms, the margin
rule and the rounding only determine the new price. -/
theorem C8_old_price_unchanged
    (rules : List Rule) (p : Product) (s : SalesData) (d : Decision)
    (h : process_product rules p s = Except.ok d) :
    p.current_price = some d.old_price := by
  cases hcp : p.current_price with
  | none => simp [process_product, getField, hcp] at h
  | some cp =>
      cases htier : tierScan rules p s with
      | error e => simp [process_product, getField, hcp, htier] at h
      | ok tier =>
          cases hfin : cond (hasMinProfit rules)
              (min_profit_apply p (tier.getD cp)) (Except.ok (tier.getD cp)) with
          | error e => simp [process_product, getField, hcp, htier, hfin] at h
          | ok final =>
              simp [process_product, getField, hcp, htier, hfin] at h
              rw [← h]

/-- C8 witness: the dead-stock example keeps its old price 10 even as
the new price moves to the floor. -/
theorem C8_old_price_unchanged_witness :
    ({ sku := "A", current_price := some 10, cost_price := some 9,
       stock := some 300 } : Product).current_price =
      some (({ sku := "A", old_price := 10, new_price := 54 / 5 } :
        Decision).old_price) :=
  C8_old_price_unchanged standardEngine
    { sku := "A", current_price := some 10, cost_price := some 9,
      stock := some 300 }
    { quantity_sold := 0 }
    { sku := "A", old_price := 10, new_price := 54 / 5 }
    (by norm_num [process_product, tierScan, should_apply, rule_apply,
      getField, min_profit_apply, hasMinProfit, isMinProfit, standardEngine,
      add_rule, sortRules, insertByPriority, round2, round_eq])

/-- C9: fingerprinting a nonexistent path returns the empty sentinel
digest (totally, not by raising), fingerprinting an existing file
returns the digest of its content bytes, and equal contents give
equal digests. -/
theorem C9_fingerprint_total
    (c : List Nat) :
    calculate_file_hash (none : Option (List Nat)) = Digest.empty ∧
    calculate_file_hash (some c) = Digest.md5 c ∧
    (∀ c₂ : List Nat, c = c₂ →
      calculate_file_hash (some c) = calculate_file_hash (some c₂)) :=
  ⟨rfl, rfl, fun _ h => by rw [h]⟩

/-- C9 witness: a concrete two-byte content hashes like itself. -/
theorem C9_fingerprint_total_witness :
    calculate_file_hash (none : Option (List Nat)) = Digest.empty ∧
    calculate_file_hash (some [7, 9]) = Digest.md5 [7, 9] ∧
    calculate_file_hash (some [7, 9]) = calculate_file_hash (some [7, 9]) :=
  ⟨(C9_fingerprint_total [7, 9]).1, (C9_fingerprint_total [7, 9]).2.1,
    (C9_fingerprint_total [7, 9]).2.2 [7, 9] rfl⟩

/-- C10: after a change check the stored fingerprints equal the
current digests of both watched tables; a pass is attempted exactly
when at least one digest differed from the stored state — its result,
error component included, is what gets stored as the output, while an
unchanged check leaves the output alone — and an immediately repeated
check against the same files never re-runs the pass, even when the
stored pass result carries an error. -/
theorem C10_fingerprints_refreshed
    (rules : List Rule) (st : HandlerState)
    (pf : Option (List Product)) (sf : Option (List SalesRow)) :
    (process_files rules st pf sf).1.products_hash = calculate_file_hash pf ∧
    (process_files rules st pf sf).1.sales_hash = calculate_file_hash sf ∧
    ((process_files rules st pf sf).2 = true ↔
      (calculate_file_hash pf ≠ st.products_hash ∨
       calculate_file_hash sf ≠ st.sales_hash)) ∧
    (process_files rules st pf sf).1.output =
      (if (process_files rules st pf sf).2 = true
       then some (runPass rules pf sf) else st.output) ∧
    (process_files rules (process_files rules st pf sf).1 pf sf).2 = false := by
  unfold process_files
  by_cases h1 : calculate_file_hash pf = st.products_hash <;>
    by_cases h2 : calculate_file_hash sf = st.sales_hash <;>
      simp [h1, h2]

/-- C10 witness: from the all-empty startup state, existing (empty)
tables differ from the sentinel hashes, so one pass runs and the
hashes settle on the current digests. -/
theorem C10_fingerprints_refreshed_witness :
    (process_files standardEngine
        { products_hash := Digest.empty, sales_hash := Digest.empty,
          output := none } (some []) (some [])).1.products_hash =
      calculate_file_hash (some []) ∧
    (process_files standardEngine
        { products_hash := Digest.empty, sales_hash := Digest.empty,
          output := none } (some []) (some [])).1.sales_hash =
      calculate_file_hash (some []) ∧
    ((process_files standardEngine
        { products_hash := Digest.empty, sales_hash := Digest.empty,
          output := none } (some []) (some [])).2 = true ↔
      (calculate_file_hash (some ([] : List Product)) ≠ Digest.empty ∨
       calculate_file_hash (some ([] : List SalesRow)) ≠ Digest.empty)) ∧
    (process_files standardEngine
        { products_hash := Digest.empty, sales_hash := Digest.empty,
          output := none } (some []) (some [])).1.output =
      (if (process_files standardEngine
            { products_hash := Digest.empty, sales_hash := Digest.empty,
              output := none } (some []) (some [])).2 = true
       then some (runPass standardEngine (some []) (some []))
       else none) ∧
    (process_files standardEngine
      (process_files standardEngine
        { products_hash := Digest.empty, sales_hash := Digest.empty,
          output := none } (some []) (some [])).1 (some []) (some [])).2 =
      false :=
  C10_fingerprints_refreshed standardEngine
    { products_hash := Digest.empty, sales_hash := Digest.empty,
      output := none } (some []) (some [])
